import Mathlib

/-!
Verification development for the MODEL-VISSION-TRACKER failover decision engine.

Shallow embedding of `src/advanced_failover.py` (class `AdvancedFailoverManager`),
`src/db_manager.py` (failover-event log) and the static provider configuration of
`src/config.py`.  Python floats are modelled as rationals, timestamps as integers
(seconds), Python dicts keyed by provider as a three-field record `PMap`, and the
externally read health snapshot (`get_current_health_status()`) as an association
list over string keys, since it may mention unknown providers.  The only runtime
exception reachable inside a controller tick — a `KeyError` when the health
snapshot names an unknown provider — is modelled as an explicit error value.
-/

/-- The closed provider set of `config.CLOUD_PROVIDERS` (keys `aws`, `azure`, `gcp`). -/
inductive Provider : Type
  | aws
  | azure
  | gcp
deriving DecidableEq

/-- The string key of a provider, as used by the Python dicts. -/
def Provider.key : Provider → String
  | .aws => "aws"
  | .azure => "azure"
  | .gcp => "gcp"

/-- Partial inverse of `Provider.key`: `none` models a `KeyError` on an unknown key. -/
def Provider.ofKey (k : String) : Option Provider :=
  if k = "aws" then some .aws
  else if k = "azure" then some .azure
  else if k = "gcp" then some .gcp
  else none

/-- Iteration order of `CLOUD_PROVIDERS.keys()` (dict insertion order in `config.py`). -/
def providersList : List Provider := [.aws, .azure, .gcp]

/-- `config.DEFAULT_PROVIDER`. -/
def DEFAULT_PROVIDER : Provider := .aws

/-- Total map over the closed provider set (a Python dict whose keys are exactly
the three providers, e.g. `health_history`, `last_failover_time`). -/
structure PMap (α : Type) : Type where
  aws : α
  azure : α
  gcp : α
deriving DecidableEq

/-- Dict read `m[provider]`. -/
def PMap.get {α : Type} (m : PMap α) : Provider → α
  | .aws => m.aws
  | .azure => m.azure
  | .gcp => m.gcp

/-- Dict write `m[provider] = v`. -/
def PMap.set {α : Type} (m : PMap α) : Provider → α → PMap α
  | .aws, v => { m with aws := v }
  | .azure, v => { m with azure := v }
  | .gcp, v => { m with gcp := v }

/-- One entry of the health snapshot returned by `get_current_health_status()`:
the fields the engine reads (`status`, `response_time`). -/
structure HStat : Type where
  status : Bool
  response_time : Option ℚ
deriving DecidableEq

/-- The health snapshot: a dict from provider-name strings to status entries,
modelled as an association list in dict insertion order (keys unique in practice;
lookups take the first occurrence).  May contain unknown provider names. -/
abbrev HealthMap : Type := List (String × HStat)

/-- Dict lookup `health_status.get(key)` / `key in health_status`. -/
def lookupHealth (health : HealthMap) (k : String) : Option HStat :=
  (health.find? (fun e => e.1 == k)).map Prod.snd

/-- One entry of a per-provider health history, as appended by
`update_health_history`: `{'timestamp': …, 'healthy': …, 'response_time': …}`. -/
structure HealthSample : Type where
  timestamp : ℤ
  healthy : Bool
  response_time : Option ℚ
deriving DecidableEq

/-- One provider's performance dict from `get_performance_data()`
(fields as produced by `performance_monitor.py`). -/
structure PerfSnapshot : Type where
  cpu_utilization : ℚ
  memory_utilization : ℚ
  disk_iops : ℚ
  network_throughput : ℚ
  request_success_rate : ℚ
  average_response_time : ℚ
deriving DecidableEq

/-- A row of the `failover_events` table written by
`db_manager.record_failover_event`; `details` carries the score snapshot that
`_log_failover_event` serialises. -/
structure DBEvent : Type where
  from_provider : String
  to_provider : String
  reason : Option String
  is_manual : Bool
  triggered_by : Option String
  details : Option (PMap ℚ)
  occurred_at : ℤ
deriving DecidableEq

/-- Per-provider decision weights (`self.provider_weights` entries). -/
structure Weights : Type where
  reliability : ℚ
  performance : ℚ
  cost : ℚ

/-- `self.provider_weights` of `AdvancedFailoverManager.__init__`. -/
def provider_weights : Provider → Weights
  | .aws => ⟨6/10, 7/10, 5/10⟩
  | .azure => ⟨5/10, 6/10, 6/10⟩
  | .gcp => ⟨55/100, 5/10, 7/10⟩

/-- `CLOUD_PROVIDERS[p]['cost_per_hour']` from `config.py`. -/
def cost_per_hour : Provider → ℚ
  | .aws => 75/100
  | .azure => 80/100
  | .gcp => 72/100

/-- `max(all_costs)` over the `CLOUD_PROVIDERS` dict values (aws, azure, gcp order). -/
def maxCost : ℚ := max (cost_per_hour .aws) (max (cost_per_hour .azure) (cost_per_hour .gcp))

/-- `min(all_costs)` over the `CLOUD_PROVIDERS` dict values. -/
def minCost : ℚ := min (cost_per_hour .aws) (min (cost_per_hour .azure) (cost_per_hour .gcp))

/-- The cost-factor term of `calculate_provider_score` (step 5). -/
def costScore (p : Provider) : ℚ :=
  if minCost < maxCost then 10 * (1 - (cost_per_hour p - minCost) / (maxCost - minCost))
  else 5

/-- The mutable state of `AdvancedFailoverManager` (plus the event table of the
database and an explicit clock `now` standing for `datetime.now()`):
`active` models the content of `ACTIVE_PROVIDER_FILE` together with the
`self.active_provider` cache (kept in sync by every write). -/
structure FState : Type where
  active : Provider
  health_history : PMap (List HealthSample)
  current_performance : PMap (Option PerfSnapshot)
  last_failover_time : PMap (Option ℤ)
  events : List DBEvent
  now : ℤ
deriving DecidableEq

/-- The trim step of `update_health_history`: keep only the last 10 entries
(`history[-10:]` when `len(history) > 10`). -/
def trim10 (l : List HealthSample) : List HealthSample :=
  if 10 < l.length then l.drop (l.length - 10) else l

/-- The sample appended by `update_health_history` for one snapshot entry
(`status.get('status', False)`, `status.get('response_time', None)`). -/
def mkSample (now : ℤ) (s : HStat) : HealthSample :=
  ⟨now, s.status, s.response_time⟩

/-- The loop body of `update_health_history` over `health_status.items()`:
appends (then trims) per provider; an unknown provider name raises a `KeyError`
on `self.health_history[provider]`, modelled as `some key` in the second
component, with the mutations of the already-processed prefix kept. -/
def update_health_history (hist : PMap (List HealthSample)) (now : ℤ) :
    HealthMap → PMap (List HealthSample) × Option String
  | [] => (hist, none)
  | (k, s) :: rest =>
    match Provider.ofKey k with
    | some p => update_health_history (hist.set p (trim10 (hist.get p ++ [mkSample now s]))) now rest
    | none => (hist, some k)

/-- The scan of `count_consecutive_failures` over the reversed history:
count unhealthy entries, stop at the first healthy one. -/
def ccfAux : List HealthSample → ℕ
  | [] => 0
  | s :: rest => if s.healthy then 0 else ccfAux rest + 1

/-- `count_consecutive_failures(provider)`: trailing failures of that provider's
history, newest first (`for status in reversed(...)`); 0 for an empty history. -/
def count_consecutive_failures (st : FState) (p : Provider) : ℕ :=
  ccfAux ((st.health_history.get p).reverse)

/-- `is_healthy` of `calculate_provider_score` step 1:
`provider in health_status and health_status[provider].get('status', False)`. -/
def currentlyHealthy (health : HealthMap) (p : Provider) : Bool :=
  match lookupHealth health p.key with
  | some s => s.status
  | none => false

/-- `recent_health_ratio` of `calculate_provider_score` step 2. -/
def healthyRatio (l : List HealthSample) : ℚ :=
  ((l.countP (fun s => s.healthy) : ℕ) : ℚ) / (l.length : ℚ)

/-- `calculate_provider_score(provider, health_status)`: multi-factor score.
Unhealthy (or absent) providers are disqualified with 0 before any other term;
otherwise +50 health base, reliability, performance, cooldown penalty
(`now - last < 60` seconds) and cost terms accumulate.  The performance dict
always carries its fields, so the Python `.get` defaults never apply. -/
def calculate_provider_score (st : FState) (p : Provider) (health : HealthMap) : ℚ :=
  if currentlyHealthy health p then
    let s1 : ℚ := 50
    let hist := st.health_history.get p
    let s2 : ℚ :=
      if hist.isEmpty then s1
      else s1 + 20 * healthyRatio hist * (provider_weights p).reliability
    let s3 : ℚ :=
      match st.current_performance.get p with
      | some perf =>
        s2 + (max 0 (10 - perf.average_response_time * 10)
              + perf.request_success_rate / 100 * 10) * (provider_weights p).performance
      | none => s2
    let s4 : ℚ :=
      match st.last_failover_time.get p with
      | some t => if st.now - t < 60 then s3 - 15 else s3
      | none => s3
    s4 + costScore p * (provider_weights p).cost
  else 0

/-- The candidate scores dict of `select_best_provider`, in
`CLOUD_PROVIDERS.keys()` order, skipping excluded providers. -/
def scoredCandidates (st : FState) (health : HealthMap) (exclude : List Provider) :
    List (Provider × ℚ) :=
  (providersList.filter (fun p => !decide (p ∈ exclude))).map
    (fun p => (p, calculate_provider_score st p health))

/-- The maximum-search loop of `select_best_provider`
(`best_provider = None; best_score = -1; if score > best_score: …`). -/
def bestLoop : List (Provider × ℚ) → Option Provider × ℚ → Option Provider × ℚ
  | [], acc => acc
  | (p, s) :: rest, (b, bs) => bestLoop rest (if bs < s then (some p, s) else (b, bs))

/-- `select_best_provider(health_status, exclude_providers)`: highest-scoring
non-excluded provider, first-encountered on ties; falls back to
`DEFAULT_PROVIDER` when the loop found nothing (`if best_provider: … else: …`). -/
def select_best_provider (st : FState) (health : HealthMap) (exclude : List Provider) :
    Provider :=
  match (bestLoop (scoredCandidates st health exclude) (none, -1)).1 with
  | some p => p
  | none => DEFAULT_PROVIDER

/-- `detect_performance_degradation(provider)`: high response time, low success
rate, or high cpu together with high memory; `False` when the provider has no
performance entry. -/
def detect_performance_degradation (perf : PMap (Option PerfSnapshot)) (p : Provider) :
    Bool :=
  match perf.get p with
  | none => false
  | some c =>
    if (5 : ℚ)/10 < c.average_response_time then true
    else if c.request_success_rate < 95 then true
    else if 85 < c.cpu_utilization ∧ 80 < c.memory_utilization then true
    else false

/-- `check_for_better_provider(current_provider, health_status)`: first other
provider in dict order whose score exceeds both `1.25 ×` the current score and 60. -/
def check_for_better_provider (st : FState) (current : Provider) (health : HealthMap) :
    Option Provider :=
  let current_score := calculate_provider_score st current health
  (providersList.filter (fun p => !decide (p = current))).find?
    (fun p =>
      let s := calculate_provider_score st p health
      decide (current_score * (125/100) < s ∧ 60 < s))

/-- `db_manager.record_failover_event(...)`: inserts one immutable row with
`occurred_at = datetime.now()` (passed here as `now`). -/
def record_failover_event (db : List DBEvent) (fromP toP : String) (reason : Option String)
    (is_manual : Bool) (triggered_by : Option String) (details : Option (PMap ℚ))
    (now : ℤ) : List DBEvent :=
  db ++ [⟨fromP, toP, reason, is_manual, triggered_by, details, now⟩]

/-- `ORDER BY occurred_at DESC`: row `a` comes no later than row `b`. -/
def eventNewer (a b : DBEvent) : Prop := b.occurred_at ≤ a.occurred_at

instance : DecidableRel eventNewer :=
  fun a b => inferInstanceAs (Decidable (b.occurred_at ≤ a.occurred_at))

instance : IsTotal DBEvent eventNewer :=
  ⟨fun a b => le_total b.occurred_at a.occurred_at⟩

instance : IsTrans DBEvent eventNewer :=
  ⟨fun _ _ _ hab hbc => le_trans hbc hab⟩

/-- `db_manager.get_recent_failover_events(limit)`: all rows ordered by
`occurred_at` descending, truncated to `limit`. -/
def get_recent_failover_events (db : List DBEvent) (limit : ℕ) : List DBEvent :=
  (db.insertionSort eventNewer).take limit

/-- The score snapshot of `_log_failover_event` (`scores` over all providers,
recomputed from the state at logging time; the fresh
`get_current_health_status()` call is modelled as the same snapshot the tick
already holds). -/
def scoreSnapshot (st : FState) (health : HealthMap) : PMap ℚ :=
  ⟨calculate_provider_score st .aws health,
   calculate_provider_score st .azure health,
   calculate_provider_score st .gcp health⟩

/-- `_perform_advanced_failover(failed_provider, health_status, reason)`:
select a target excluding the failed provider; fail (state unchanged) when the
selection equals the failed provider, otherwise switch the active provider, set
the cooldown timestamp and log the event (`_log_failover_event`, automatic). -/
def perform_advanced_failover (st : FState) (failed : Provider) (health : HealthMap)
    (reason : String) : Bool × FState :=
  let best := select_best_provider st health [failed]
  if best = failed then (false, st)
  else
    let st1 : FState :=
      { st with active := best, last_failover_time := st.last_failover_time.set failed (some st.now) }
    let st2 : FState :=
      { st1 with events := record_failover_event st1.events failed.key best.key (some reason)
                  false (some "advanced_system") (some (scoreSnapshot st1 health)) st1.now }
    (true, st2)

/-- `manual_failover(to_provider, reason)`: no-op returning `False` when the
target is already active; otherwise an unconditional switch with cooldown
bookkeeping and a `manual` event. -/
def manual_failover (st : FState) (toP : Provider) (reason : String) (health : HealthMap) :
    Bool × FState :=
  let current := st.active
  if current = toP then (false, st)
  else
    let st1 : FState :=
      { st with active := toP, last_failover_time := st.last_failover_time.set current (some st.now) }
    let st2 : FState :=
      { st1 with events := record_failover_event st1.events current.key toP.key (some reason)
                  true (some "user") (some (scoreSnapshot st1 health)) st1.now }
    (true, st2)

/-- The `needs_failover` / `failover_reason` evaluation of `check_and_failover`,
on the state whose health history was already updated: case 1 (active provider
unhealthy in the snapshot with at least `consecutive_failures_threshold = 3`
consecutive failures), case 2 (performance degradation of the active provider,
when it has a performance entry), case 3 (significantly better provider
available), in this fixed order. -/
def failover_trigger (st : FState) (health : HealthMap) : Option String :=
  let current := st.active
  let needs1 : Option String :=
    match lookupHealth health current.key with
    | some s =>
      if s.status then none
      else
        let cf := count_consecutive_failures st current
        if 3 ≤ cf then
          some ("Provider unhealthy for " ++ toString cf ++ " consecutive checks")
        else none
    | none => none
  let needs2 : Option String :=
    match needs1 with
    | some r => some r
    | none =>
      if (st.current_performance.get current).isSome
          && detect_performance_degradation st.current_performance current then
        some "Significant performance degradation detected"
      else none
  match needs2 with
  | some r => some r
  | none =>
    match check_for_better_provider st current health with
    | some b => some ("Better performing provider (" ++ b.key ++ ") available")
    | none => none

/-- `check_and_failover()`: one controller tick.  Empty health snapshot → early
`False`; then the health history is updated (a `KeyError` on an unknown provider
is caught by the surrounding `try/except`, keeping the mutations already made
and returning `False`); then the three triggers are evaluated in fixed order and
`True` is returned whenever a trigger fired, regardless of whether
`_perform_advanced_failover` itself succeeded. -/
def check_and_failover (st : FState) (health : HealthMap) : Bool × FState :=
  if health.isEmpty then (false, st)
  else
    match update_health_history st.health_history st.now health with
    | (hist, some _) => (false, { st with health_history := hist })
    | (hist, none) =>
      let st1 : FState := { st with health_history := hist }
      match failover_trigger st1 health with
      | some reason => (true, (perform_advanced_failover st1 st1.active health reason).2)
      | none => (false, st1)

/-- The disaster scenarios of `simulate_disaster_scenario` (the `random` mode
uniformly picks one of these three and is not modelled separately). -/
inductive Scenario : Type
  | provider_failure
  | performance_degradation
  | network_outage

/-- An injected synthetic failure sample (`healthy: False, response_time: None`). -/
def failSample (now : ℤ) : HealthSample := ⟨now, false, none⟩

/-- `simulate_disaster_scenario(scenario)`.  `pick` stands for the
`random.choice` among the non-active providers in the network-outage branch.
`provider_failure` appends `consecutive_failures_threshold + 1 = 4` unhealthy
samples to the active provider's history (without trimming) and returns the
tick's result; `performance_degradation` degrades the active provider's
performance dict, runs a tick and restores the saved copy; `network_outage`
injects failures into the picked non-active provider, runs a tick and returns
`False` unconditionally, discarding the tick's result. -/
def simulate_disaster_scenario (st : FState) (health : HealthMap) (sc : Scenario)
    (pick : Provider) : Bool × FState :=
  let current := st.active
  match sc with
  | .provider_failure =>
    let st1 : FState :=
      { st with health_history := st.health_history.set current
                  (st.health_history.get current ++ List.replicate 4 (failSample st.now)) }
    check_and_failover st1 health
  | .performance_degradation =>
    match st.current_performance.get current with
    | none => (false, st)
    | some orig =>
      let degraded : PerfSnapshot :=
        { orig with average_response_time := 8/10, request_success_rate := 92,
                    cpu_utilization := 90, memory_utilization := 85 }
      let st1 : FState :=
        { st with current_performance := st.current_performance.set current (some degraded) }
      let r := check_and_failover st1 health
      let st3 : FState :=
        { r.2 with current_performance := r.2.current_performance.set current (some orig) }
      (r.1, st3)
  | .network_outage =>
    let others := providersList.filter (fun p => !decide (p = current))
    if others.isEmpty then (false, st)
    else
      let failed := pick
      let st1 : FState :=
        { st with health_history := st.health_history.set failed
                    (st.health_history.get failed ++ List.replicate 4 (failSample st.now)) }
      let st2 := (check_and_failover st1 health).2
      (false, st2)

/-! ### Helper lemmas about the embedded data structures -/

theorem PMap.get_set {α : Type} (m : PMap α) (p q : Provider) (v : α) :
    (m.set p v).get q = if q = p then v else m.get q := by
  cases p <;> cases q <;> simp [PMap.set, PMap.get]

theorem PMap.set_set {α : Type} (m : PMap α) (p : Provider) (x y : α) :
    (m.set p x).set p y = m.set p y := by
  cases p <;> rfl

theorem PMap.set_get_self {α : Type} (m : PMap α) (p : Provider) :
    m.set p (m.get p) = m := by
  cases p <;> rfl

theorem trim10_length (l : List HealthSample) : (trim10 l).length = min l.length 10 := by
  unfold trim10
  split
  · rename_i h
    rw [List.length_drop]
    omega
  · rename_i h
    omega

theorem ccfAux_eq_takeWhile (m : List HealthSample) :
    ccfAux m = (m.takeWhile (fun s => !s.healthy)).length := by
  induction m with
  | nil => rfl
  | cons s rest ih =>
    by_cases h : s.healthy = true
    · simp [ccfAux, List.takeWhile, h]
    · simp only [Bool.not_eq_true] at h
      simp [ccfAux, List.takeWhile, h, ih]

/-! ### Concrete states and snapshots used by witnesses and counterexamples -/

/-- A minimal state: aws active, empty histories, no performance data, no cooldowns. -/
def exSt : FState :=
  { active := .aws
    health_history := ⟨[], [], []⟩
    current_performance := ⟨none, none, none⟩
    last_failover_time := ⟨none, none, none⟩
    events := []
    now := 1000 }

/-- A healthy nominal performance snapshot. -/
def exPerfGood : PerfSnapshot := ⟨20, 30, 300, 100, 99, 2/10⟩

/-- A degraded performance snapshot (response time above the 0.5 s threshold). -/
def exPerfSlow : PerfSnapshot := ⟨20, 30, 300, 100, 99, 8/10⟩

/-- A state with non-trivial history, performance, cooldown and event data. -/
def exStRich : FState :=
  { active := .aws
    health_history := ⟨[⟨900, true, some (1/10)⟩, ⟨950, false, none⟩], [⟨900, true, some (2/10)⟩], []⟩
    current_performance := ⟨some exPerfGood, some exPerfGood, none⟩
    last_failover_time := ⟨some 990, none, none⟩
    events := [⟨"azure", "aws", some "seed", false, some "advanced_system", none, 5⟩]
    now := 1000 }

/-- A state whose aws history is exactly at the 10-entry capacity. -/
def exStTen : FState :=
  { exSt with health_history := ⟨List.replicate 10 ⟨0, true, none⟩, [], []⟩ }

/-- A health snapshot in which every provider is unhealthy. -/
def exHealthBad : HealthMap :=
  [("aws", ⟨false, none⟩), ("azure", ⟨false, none⟩), ("gcp", ⟨false, none⟩)]

/-- A health snapshot in which every provider is healthy. -/
def exHealthGood : HealthMap :=
  [("aws", ⟨true, some (1/10)⟩), ("azure", ⟨true, some (2/10)⟩), ("gcp", ⟨true, some (3/10)⟩)]

/-- A health snapshot naming a provider outside the configured set. -/
def exHealthAlien : HealthMap := [("oracle", ⟨true, none⟩)]

/-! ### Claim theorems -/

/-- C1: for every provider and every input state, `calculate_provider_score`
returns exactly 0 whenever the provider's current health sample is unhealthy (or
the provider is absent from the current health map), regardless of the health
history, performance data, cooldown timestamps and cost configuration. -/
theorem C1_unhealthy_scores_zero (st : FState) (p : Provider) (health : HealthMap)
    (h : currentlyHealthy health p = false) :
    calculate_provider_score st p health = 0 := by
  simp [calculate_provider_score, h]

/-- Witness for C1 at a state with non-trivial history, performance and cooldown
data: aws is unhealthy in the snapshot, so its score is 0. -/
theorem C1_witness :
    currentlyHealthy exHealthBad Provider.aws = false ∧
    calculate_provider_score exStRich Provider.aws exHealthBad = 0 :=
  ⟨by decide, C1_unhealthy_scores_zero exStRich Provider.aws exHealthBad (by decide)⟩

/-- C3: `count_consecutive_failures` equals the number of trailing unhealthy
samples scanning newest→oldest, stopping at the first healthy sample; it is 0 on
an empty history, and appending a newest sample resets the count to 0 when that
sample is healthy and increments it otherwise. -/
theorem C3_count_consecutive_failures :
    (∀ (st : FState) (p : Provider),
       count_consecutive_failures st p =
         ((st.health_history.get p).reverse.takeWhile (fun s => !s.healthy)).length)
    ∧ ccfAux ([] : List HealthSample).reverse = 0
    ∧ ∀ (l : List HealthSample) (s : HealthSample),
        ccfAux ((l ++ [s]).reverse) = if s.healthy then 0 else ccfAux l.reverse + 1 := by
  refine ⟨fun st p => ccfAux_eq_takeWhile _, rfl, fun l s => ?_⟩
  rw [List.reverse_append]
  simp [ccfAux]

/-- C5: calling `manual_failover` with the currently active provider as target
is a no-op: it returns `False`, appends no failover event, and leaves the whole
state (active provider and last-failover timestamps included) unchanged. -/
theorem C5_manual_failover_noop (st : FState) (toP : Provider) (reason : String)
    (health : HealthMap) (h : toP = st.active) :
    manual_failover st toP reason health = (false, st) := by
  subst h
  simp [manual_failover]

/-- Witness for C5: requesting a manual failover to the already-active aws of a
state with history, events and cooldowns returns `False` and changes nothing. -/
theorem C5_witness :
    Provider.aws = exStRich.active ∧
    manual_failover exStRich Provider.aws "Manual failover" exHealthGood = (false, exStRich) :=
  ⟨by decide, C5_manual_failover_noop exStRich Provider.aws "Manual failover" exHealthGood (by decide)⟩

/-- C9: when the body of a controller tick raises (the health snapshot names an
unknown provider, a `KeyError` on `self.health_history[provider]`), the error is
caught inside `check_and_failover` and the tick returns `False` instead of
propagating the exception; the tick is a total function of the state. -/
theorem C9_tick_catches_errors (st : FState) (health : HealthMap) (k : String)
    (herr : (update_health_history st.health_history st.now health).2 = some k) :
    (check_and_failover st health).1 = false := by
  unfold check_and_failover
  split
  · rfl
  · rename_i hne
    split
    · rfl
    · rename_i hist hupd
      rw [hupd] at herr
      simp at herr

/-- Witness for C9: a health snapshot naming the unknown provider `oracle`
makes the history update fail, and the tick returns `False`. -/
theorem C9_witness :
    (update_health_history exSt.health_history exSt.now exHealthAlien).2 = some "oracle" ∧
    (check_and_failover exSt exHealthAlien).1 = false :=
  ⟨by decide, C9_tick_catches_errors exSt exHealthAlien "oracle" (by decide)⟩

/-- C10: `simulate_disaster_scenario("network_outage")` returns `False`
unconditionally — for every starting state, health snapshot and random pick of
the failed provider — because the boolean result of the controller tick it
invokes is discarded; this holds in particular whenever a non-active provider
exists and even when that tick performed a failover. -/
theorem C10_network_outage_returns_false (st : FState) (health : HealthMap) (pick : Provider) :
    (simulate_disaster_scenario st health .network_outage pick).1 = false := by
  unfold simulate_disaster_scenario
  dsimp only
  split <;> rfl

/-- `detect_performance_degradation` returns `True` only for providers that have
a performance entry. -/
theorem detect_isSome (perf : PMap (Option PerfSnapshot)) (p : Provider)
    (h : detect_performance_degradation perf p = true) : (perf.get p).isSome = true := by
  unfold detect_performance_degradation at h
  rcases hget : perf.get p with _ | c
  · rw [hget] at h
    exact absurd h (by simp)
  · rfl

/-- `perform_advanced_failover` never touches the performance map. -/
theorem perform_preserves_perf (st : FState) (failed : Provider) (health : HealthMap)
    (reason : String) :
    ((perform_advanced_failover st failed health reason).2).current_performance
      = st.current_performance := by
  by_cases hbf : select_best_provider st health [failed] = failed
  · simp [perform_advanced_failover, hbf]
  · simp [perform_advanced_failover, hbf]

/-- A controller tick never touches the performance map (it only reads it). -/
theorem tick_preserves_perf (st : FState) (health : HealthMap) :
    ((check_and_failover st health).2).current_performance = st.current_performance := by
  unfold check_and_failover
  split
  · rfl
  · split
    · rfl
    · rename_i hist hupd
      dsimp only
      cases htr : failover_trigger { st with health_history := hist } health with
      | none => rfl
      | some reason => exact perform_preserves_perf _ _ _ _

/-- C6: running `simulate_disaster_scenario("performance_degradation")` leaves
the performance map — in particular the active provider's PerformanceSnapshot,
field for field — equal to its value before the call, on every exit path,
whether the intervening controller tick returned `False`, failed internally, or
performed a failover. -/
theorem C6_perf_degradation_restores (st : FState) (health : HealthMap) (pick : Provider) :
    ((simulate_disaster_scenario st health .performance_degradation pick).2).current_performance
      = st.current_performance := by
  unfold simulate_disaster_scenario
  dsimp only
  cases hp : st.current_performance.get st.active with
  | none => rfl
  | some orig =>
    dsimp only
    rw [tick_preserves_perf]
    dsimp only
    rw [PMap.set_set, ← hp, PMap.set_get_self]

/-- C4 counterexample: starting from a state whose aws history already holds 10
samples, `simulate_disaster_scenario("provider_failure")` appends 4 synthetic
unhealthy samples without trimming, and when the controller tick's health
snapshot is empty (health status unavailable) nothing trims them back: the
history ends at 14 entries, exceeding the claimed bound of 10. -/
theorem C4_counterexample :
    ¬ ((((simulate_disaster_scenario exStTen [] .provider_failure .azure).2).health_history.get
        Provider.aws).length ≤ 10) := by
  decide

/-- C4 amended: the capacity invariant holds for the HealthMonitor append path —
a single `update_health_history` append evicts the oldest entry on overflow and
preserves order (`trim10 (l ++ [s])` keeps `l ++ [s]` under capacity and drops
exactly the head at capacity), and any sequence of `update_health_history`
operations keeps every history at ≤ 10 entries — but the disaster simulator
appends samples directly without trimming, so the bound does not survive
`simulate_disaster_scenario` (see the counterexample). -/
theorem C4_amended_capacity :
    (∀ (l : List HealthSample) (s : HealthSample), l.length ≤ 10 →
       trim10 (l ++ [s]) = if l.length < 10 then l ++ [s] else l.tail ++ [s])
    ∧ ∀ (hist : PMap (List HealthSample)) (now : ℤ) (hs : HealthMap) (p : Provider),
        (hist.get p).length ≤ 10 →
        (((update_health_history hist now hs).1).get p).length ≤ 10 := by
  constructor
  · intro l s hl
    have hlen : (l ++ [s]).length = l.length + 1 := by simp
    by_cases h10 : l.length < 10
    · have hnot : ¬ 10 < (l ++ [s]).length := by omega
      rw [trim10, if_neg hnot, if_pos h10]
    · have hone : 1 ≤ l.length := by omega
      have hgt : 10 < (l ++ [s]).length := by omega
      have hsub : (l ++ [s]).length - 10 = 1 := by omega
      rw [trim10, if_pos hgt, if_neg h10, hsub,
        List.drop_append_of_le_length hone, List.drop_one]
  · intro hist now hs p
    induction hs generalizing hist with
    | nil => intro hp; exact hp
    | cons kv rest ih =>
      intro hp
      obtain ⟨k, s⟩ := kv
      unfold update_health_history
      cases hok : Provider.ofKey k with
      | none => exact hp
      | some q =>
        apply ih
        rw [PMap.get_set]
        split
        · rw [trim10_length]; omega
        · exact hp

/-- Witness for C4's amended statement: appending to a history at capacity 10
evicts exactly the oldest entry, and a full `update_health_history` pass over a
three-provider snapshot keeps the aws history within capacity. -/
theorem C4_witness :
    trim10 ((exStTen.health_history.get Provider.aws) ++ [failSample 0]) =
      (if (exStTen.health_history.get Provider.aws).length < 10 then
        (exStTen.health_history.get Provider.aws) ++ [failSample 0]
      else (exStTen.health_history.get Provider.aws).tail ++ [failSample 0]) ∧
    (((update_health_history exStTen.health_history 0 exHealthGood).1).get
        Provider.aws).length ≤ 10 :=
  ⟨C4_amended_capacity.1 (exStTen.health_history.get Provider.aws) (failSample 0) (by decide),
   C4_amended_capacity.2 exStTen.health_history 0 exHealthGood Provider.aws (by decide)⟩

/-- A state whose active provider aws has a degraded performance snapshot. -/
def exStSlow : FState :=
  { exSt with current_performance := ⟨some exPerfSlow, none, none⟩ }

/-- The health history produced by one `update_health_history` pass of
`exHealthGood` over empty histories. -/
def exHistG : PMap (List HealthSample) :=
  ⟨[⟨1000, true, some (1/10)⟩], [⟨1000, true, some (2/10)⟩], [⟨1000, true, some (3/10)⟩]⟩

/-- C7: `detect_performance_degradation` returns `True` exactly when the
provider's snapshot has `averageResponseTime > 0.5 s`, or
`requestSuccessRate < 95`, or `cpuUtilization > 85` together with
`memoryUtilization > 80`; and when the active provider's current health sample
is healthy but this predicate holds, a controller tick still returns `True`,
triggering a failover. -/
theorem C7_detect_and_tick :
    (∀ (perf : PMap (Option PerfSnapshot)) (p : Provider) (c : PerfSnapshot),
       perf.get p = some c →
       (detect_performance_degradation perf p = true ↔
         ((5 : ℚ)/10 < c.average_response_time ∨ c.request_success_rate < 95 ∨
           (85 < c.cpu_utilization ∧ 80 < c.memory_utilization))))
    ∧ ∀ (st : FState) (health : HealthMap) (hist : PMap (List HealthSample)) (s : HStat),
        health.isEmpty = false →
        update_health_history st.health_history st.now health = (hist, none) →
        lookupHealth health st.active.key = some s →
        s.status = true →
        detect_performance_degradation st.current_performance st.active = true →
        (check_and_failover st health).1 = true := by
  constructor
  · intro perf p c h
    simp only [detect_performance_degradation, h]
    split_ifs with h1 h2 h3 <;> simp_all
  · intro st health hist s hne hupd hlook hstatus hdet
    have htrig : failover_trigger { st with health_history := hist } health =
        some "Significant performance degradation detected" := by
      unfold failover_trigger
      dsimp only
      rw [hlook]
      simp only [hstatus, if_true]
      rw [detect_isSome st.current_performance st.active hdet, hdet]
      rfl
    unfold check_and_failover
    rw [if_neg (by simp [hne]), hupd]
    dsimp only
    rw [htrig]

/-- Witness for C7: a 0.8 s response-time snapshot is degraded, and for a state
where aws is active and healthy with that snapshot, the tick returns `True`. -/
theorem C7_witness :
    (detect_performance_degradation (⟨some exPerfSlow, none, none⟩ : PMap (Option PerfSnapshot))
        Provider.aws = true ↔
      ((5 : ℚ)/10 < exPerfSlow.average_response_time ∨ exPerfSlow.request_success_rate < 95 ∨
        (85 < exPerfSlow.cpu_utilization ∧ 80 < exPerfSlow.memory_utilization)))
    ∧ (check_and_failover exStSlow exHealthGood).1 = true :=
  ⟨C7_detect_and_tick.1 (⟨some exPerfSlow, none, none⟩ : PMap (Option PerfSnapshot))
      Provider.aws exPerfSlow rfl,
   C7_detect_and_tick.2 exStSlow exHealthGood exHistG ⟨true, some (1/10)⟩
      (by decide) rfl rfl rfl
      (by norm_num [detect_performance_degradation, exStSlow, exSt, exPerfSlow, PMap.get])⟩

/-- The providers `select_best_provider` actually scores: every configured
provider not in the exclusion list, in dict order. -/
def candidateProviders (exclude : List Provider) : List Provider :=
  providersList.filter (fun p => !decide (p ∈ exclude))

/-- The scores dict is the candidate list paired with scores. -/
theorem scoredCandidates_eq (st : FState) (health : HealthMap) (exclude : List Provider) :
    scoredCandidates st health exclude
      = (candidateProviders exclude).map (fun p => (p, calculate_provider_score st p health)) :=
  rfl

/-- Invariant of the maximum-search loop of `select_best_provider`: the final
best score dominates the seed and every listed score, and the final accumulator
is either the seed or one of the listed pairs. -/
theorem bestLoop_spec (l : List (Provider × ℚ)) :
    ∀ (b : Option Provider) (bs : ℚ),
      bs ≤ (bestLoop l (b, bs)).2
      ∧ (∀ x ∈ l, x.2 ≤ (bestLoop l (b, bs)).2)
      ∧ (bestLoop l (b, bs) = (b, bs) ∨ ∃ x ∈ l, bestLoop l (b, bs) = (some x.1, x.2)) := by
  induction l with
  | nil =>
    intro b bs
    exact ⟨le_refl _, by simp, Or.inl rfl⟩
  | cons hd tl ih =>
    intro b bs
    obtain ⟨p, s⟩ := hd
    by_cases hlt : bs < s
    · have h := ih (some p) s
      have hred : bestLoop ((p, s) :: tl) (b, bs) = bestLoop tl (some p, s) := by
        simp [bestLoop, hlt]
      rw [hred]
      refine ⟨le_trans (le_of_lt hlt) h.1, ?_, ?_⟩
      · intro x hx
        rcases List.mem_cons.mp hx with heq | hx
        · rw [heq]
          exact h.1
        · exact h.2.1 x hx
      · rcases h.2.2 with heq | ⟨x, hx, heq⟩
        · exact Or.inr ⟨(p, s), List.mem_cons_self _ _, heq⟩
        · exact Or.inr ⟨x, List.mem_cons_of_mem _ hx, heq⟩
    · have h := ih b bs
      have hred : bestLoop ((p, s) :: tl) (b, bs) = bestLoop tl (b, bs) := by
        simp [bestLoop, hlt]
      rw [hred]
      refine ⟨h.1, ?_, ?_⟩
      · intro x hx
        rcases List.mem_cons.mp hx with heq | hx
        · rw [heq]
          exact le_trans (not_lt.mp hlt) h.1
        · exact h.2.1 x hx
      · rcases h.2.2 with heq | ⟨x, hx, heq⟩
        · exact Or.inl heq
        · exact Or.inr ⟨x, List.mem_cons_of_mem _ hx, heq⟩

/-- C2 amended: `select_best_provider` scores every provider not excluded and
returns one achieving the maximum score (first-encountered on ties) whenever
some candidate scores above the `-1` loop seed — in particular it never returns
"none": even when every candidate scores 0 it returns the first
maximum-scoring candidate, and when every provider is excluded it returns
`DEFAULT_PROVIDER`.  `_perform_advanced_failover` reports failure exactly when
the selected provider equals the failed one (never merely because all
alternatives score ≤ 0), and only in that case is the state left unchanged. -/
theorem C2_amended_selection (st : FState) (health : HealthMap) (exclude : List Provider) :
    ((∃ p, p ∈ candidateProviders exclude ∧ -1 < calculate_provider_score st p health) →
       select_best_provider st health exclude ∈ candidateProviders exclude ∧
       ∀ q ∈ candidateProviders exclude,
         calculate_provider_score st q health ≤
           calculate_provider_score st (select_best_provider st health exclude) health)
    ∧ (candidateProviders exclude = [] →
        select_best_provider st health exclude = DEFAULT_PROVIDER)
    ∧ ∀ (failed : Provider) (reason : String),
        ((perform_advanced_failover st failed health reason).1 = false ↔
          select_best_provider st health [failed] = failed)
        ∧ ((perform_advanced_failover st failed health reason).1 = false →
            (perform_advanced_failover st failed health reason).2 = st) := by
  refine ⟨?_, ?_, ?_⟩
  · rintro ⟨p, hp, hscore⟩
    have hmem : (p, calculate_provider_score st p health) ∈ scoredCandidates st health exclude := by
      rw [scoredCandidates_eq]
      exact List.mem_map_of_mem _ hp
    have hspec := bestLoop_spec (scoredCandidates st health exclude) none (-1)
    rcases hspec.2.2 with heq | ⟨x, hx, heq⟩
    · exfalso
      have hle := hspec.2.1 _ hmem
      rw [heq] at hle
      exact absurd (lt_of_lt_of_le hscore hle) (lt_irrefl _)
    · rw [scoredCandidates_eq] at hx
      obtain ⟨q, hq, hxq⟩ := List.mem_map.mp hx
      have hfst : (bestLoop (scoredCandidates st health exclude) (none, -1)).1 = some q := by
        rw [heq, ← hxq]
      have hsel : select_best_provider st health exclude = q := by
        unfold select_best_provider
        rw [hfst]
      constructor
      · rw [hsel]
        exact hq
      · intro r hr
        have hrmem : (r, calculate_provider_score st r health)
            ∈ scoredCandidates st health exclude := by
          rw [scoredCandidates_eq]
          exact List.mem_map_of_mem _ hr
        have hle := hspec.2.1 _ hrmem
        rw [heq, ← hxq] at hle
        rw [hsel]
        exact hle
  · intro hempty
    unfold select_best_provider
    rw [scoredCandidates_eq, hempty]
    rfl
  · intro failed reason
    constructor
    · by_cases hbf : select_best_provider st health [failed] = failed
      · simp [perform_advanced_failover, hbf]
      · simp [perform_advanced_failover, hbf]
    · intro hfalse
      by_cases hbf : select_best_provider st health [failed] = failed
      · simp [perform_advanced_failover, hbf]
      · exfalso
        simp [perform_advanced_failover, hbf] at hfalse

/-- C2 counterexample: with every provider unhealthy, every candidate scores
exactly 0 (≤ 0), yet `select_best_provider` does not return "none": excluding
the failed aws it returns azure, and `_perform_advanced_failover` — the
decision path the claim says must surface failure and leave the active provider
unchanged when no eligible target exists — reports success and switches the
active provider to the zero-scoring azure. -/
theorem C2_counterexample :
    calculate_provider_score exSt Provider.azure exHealthBad = 0 ∧
    calculate_provider_score exSt Provider.gcp exHealthBad = 0 ∧
    select_best_provider exSt exHealthBad [Provider.aws] = Provider.azure ∧
    (perform_advanced_failover exSt Provider.aws exHealthBad "unhealthy").1 = true ∧
    ((perform_advanced_failover exSt Provider.aws exHealthBad "unhealthy").2).active
      = Provider.azure :=
  ⟨rfl, rfl, rfl, rfl, rfl⟩

/-- Witness for C2's amended statement: with all providers unhealthy and aws
excluded, azure's score 0 exceeds the −1 seed, so the selection is a candidate
achieving the maximum; excluding everything yields the default provider; and
the failure/no-change equivalence holds at the same input. -/
theorem C2_amended_witness :
    (select_best_provider exSt exHealthBad [Provider.aws]
        ∈ candidateProviders [Provider.aws] ∧
      ∀ q ∈ candidateProviders [Provider.aws],
        calculate_provider_score exSt q exHealthBad ≤
          calculate_provider_score exSt
            (select_best_provider exSt exHealthBad [Provider.aws]) exHealthBad)
    ∧ select_best_provider exSt exHealthBad providersList = DEFAULT_PROVIDER
    ∧ ((perform_advanced_failover exSt Provider.aws exHealthBad "unhealthy").1 = false ↔
        select_best_provider exSt exHealthBad [Provider.aws] = Provider.aws) :=
  ⟨(C2_amended_selection exSt exHealthBad [Provider.aws]).1
      ⟨Provider.azure, by decide,
        by rw [show calculate_provider_score exSt Provider.azure exHealthBad = 0 from rfl]; norm_num⟩,
   (C2_amended_selection exSt exHealthBad providersList).2.1 (by decide),
   ((C2_amended_selection exSt exHealthBad [Provider.aws]).2.2 Provider.aws "unhealthy").1⟩

/-- C8: appending a failover event whose `occurred_at` is fresher than every
stored event and then reading `recent(1)` returns that exact event (same
from-provider, to-provider, reason, and manual flag) as the newest entry; and
for every limit, `recent(limit)` returns at most `limit` events ordered by
`occurred_at` descending. -/
theorem C8_event_log_roundtrip (db : List DBEvent) (fromP toP : String)
    (reason : Option String) (man : Bool) (trig : Option String)
    (det : Option (PMap ℚ)) (now : ℤ)
    (hfresh : ∀ x ∈ db, x.occurred_at < now) :
    get_recent_failover_events (record_failover_event db fromP toP reason man trig det now) 1
      = [⟨fromP, toP, reason, man, trig, det, now⟩]
    ∧ ∀ limit, (get_recent_failover_events db limit).length ≤ limit
        ∧ List.Pairwise eventNewer (get_recent_failover_events db limit) := by
  constructor
  · set e : DBEvent := ⟨fromP, toP, reason, man, trig, det, now⟩ with he
    have hperm := List.perm_insertionSort eventNewer (db ++ [e])
    have hsorted := List.sorted_insertionSort eventNewer (db ++ [e])
    unfold get_recent_failover_events record_failover_event
    cases hL : (db ++ [e]).insertionSort eventNewer with
    | nil =>
      exfalso
      have hlen := hperm.length_eq
      rw [hL] at hlen
      simp at hlen
    | cons hd t =>
      have hmem_e : e ∈ hd :: t := by
        rw [← hL]
        exact hperm.mem_iff.mpr (by simp)
      have hhd : hd = e := by
        rcases List.mem_cons.mp hmem_e with heq | het
        · exact heq.symm
        · rw [hL] at hsorted
          have h1 : e.occurred_at ≤ hd.occurred_at :=
            List.rel_of_sorted_cons hsorted e het
          have hmem_hd : hd ∈ db ++ [e] :=
            hperm.mem_iff.mp (by rw [hL]; exact List.mem_cons_self _ _)
          rcases List.mem_append.mp hmem_hd with hdb | hsing
        
          · exfalso
            have h2 := hfresh hd hdb
            rw [he] at h1
            simp only at h1
            omega
          · simpa using hsing
      rw [hhd]
      rfl
  · intro limit
    constructor
    · unfold get_recent_failover_events
      rw [List.length_take]
      exact min_le_left _ _
    · unfold get_recent_failover_events
      exact List.Pairwise.sublist (List.take_sublist _ _)
        (List.sorted_insertionSort eventNewer db)

/-- A pre-existing event-log row used by the C8 witness. -/
def exDB : List DBEvent := [⟨"azure", "aws", some "seed", false, some "user", none, 5⟩]

/-- Witness for C8: recording an event at time 9 over a log whose only entry is
at time 5 and reading back `recent(1)` yields exactly the new event, and
`recent(1)` on the original log returns at most one entry. -/
theorem C8_witness :
    get_recent_failover_events
        (record_failover_event exDB "aws" "azure" (some "manual") true (some "user") none 9) 1
      = [⟨"aws", "azure", some "manual", true, some "user", none, 9⟩]
    ∧ (get_recent_failover_events exDB 1).length ≤ 1 :=
  ⟨(C8_event_log_roundtrip exDB "aws" "azure" (some "manual") true (some "user") none 9
      (by decide)).1,
   ((C8_event_log_roundtrip exDB "aws" "azure" (some "manual") true (some "user") none 9
      (by decide)).2 1).1⟩
